import Mathlib

/-!
# Verification of the creature cognition-and-lifecycle engine

This development gives a shallow embedding, in Lean 4, of the core state
machines of the `creatures-clone` artificial-life simulation (metabolism,
emotions, genetics, language, learning/recall, the neural controller's
forward pass, and the world breeding pass), and proves or refutes the
specified properties about them.

Floating-point (`float64`) arithmetic of the source is modelled by exact
rational arithmetic (`ℚ`) where the source only adds, multiplies, compares
and clamps, and by real arithmetic (`ℝ`) where the source takes square
roots or exponentials.  Go `map` values are modelled by association lists
whose order stands for one admissible iteration order of the map.
Sequential statements of a Go method body are modelled as a composition of
one small Lean definition per statement group, named after the surrounding
code comments, so that each definition can be diffed against its lines of
source.
-/

/-- Model of `utils.Clamp` (`renderer/sprite.go`, `Clamp`): constrains a
value between `lo` and `hi`, testing the lower bound first. -/
def clamp (v lo hi : ℚ) : ℚ :=
  if v < lo then lo else if v > hi then hi else v

/-- Model of `utils.Min` (`renderer/sprite.go`, `Min`). -/
def qmin (a b : ℚ) : ℚ := if a < b then a else b

theorem clamp_mem {v lo hi : ℚ} (h : lo ≤ hi) :
    lo ≤ clamp v lo hi ∧ clamp v lo hi ≤ hi := by
  unfold clamp; split_ifs with h1 h2 <;> constructor <;> linarith

theorem clamp_le {v lo hi : ℚ} (h : lo ≤ hi) : clamp v lo hi ≤ hi :=
  (clamp_mem h).2

theorem le_clamp {v lo hi : ℚ} (h : lo ≤ hi) : lo ≤ clamp v lo hi :=
  (clamp_mem h).1

theorem qmin_le_left (a b : ℚ) : qmin a b ≤ a := by
  unfold qmin; split_ifs with h <;> linarith

theorem qmin_nonneg {a b : ℚ} (ha : 0 ≤ a) (hb : 0 ≤ b) : 0 ≤ qmin a b := by
  unfold qmin; split_ifs with h <;> linarith

/-! ## Metabolism (`creature/metabolism.go`) -/

/-- The `Metabolism` struct: core stats, rates, chemical levels and
status tracking, as in `creature/metabolism.go`. -/
structure Metabolism where
  health : ℚ
  hunger : ℚ
  energy : ℚ
  hungerRate : ℚ
  energyRate : ℚ
  healingRate : ℚ
  glucose : ℚ
  toxins : ℚ
  endorphins : ℚ
  adrenaline : ℚ
  lastMealTime : ℚ
  lastSleepTime : ℚ
  totalFoodEaten : ℤ
  deriving DecidableEq

/-- `NewMetabolism`: the fresh metabolism state. -/
def newMetabolism : Metabolism :=
  { health := 100, hunger := 30, energy := 80
    hungerRate := 0.05, energyRate := 0.03, healingRate := 0.02
    glucose := 50, toxins := 0, endorphins := 30, adrenaline := 10
    lastMealTime := 0, lastSleepTime := 0, totalFoodEaten := 0 }

/-- `processChemicals`, glucose consumption block: convert glucose to
energy and hunger reduction at the capped per-tick rate. -/
def Metabolism.chemGlucose (m : Metabolism) : Metabolism :=
  if m.glucose > 0 then
    { m with glucose := m.glucose - qmin m.glucose 0.1
             energy := clamp (m.energy + qmin m.glucose 0.1 * 2) 0 100
             hunger := clamp (m.hunger - qmin m.glucose 0.1 * 3) 0 100 }
  else m

/-- `processChemicals`, toxin processing block. -/
def Metabolism.chemToxins (m : Metabolism) : Metabolism :=
  if m.toxins > 0 then { m with toxins := clamp (m.toxins - 0.05) 0 100 } else m

/-- `processChemicals`, endorphin decay. -/
def Metabolism.chemEndorphins (m : Metabolism) : Metabolism :=
  { m with endorphins := clamp (m.endorphins - 0.02) 0 100 }

/-- `processChemicals`, adrenaline decay. -/
def Metabolism.chemAdrenaline (m : Metabolism) : Metabolism :=
  { m with adrenaline := clamp (m.adrenaline - 0.03) 0 100 }

/-- `processChemicals`: the four chemical blocks in source order. -/
def Metabolism.processChemicals (m : Metabolism) : Metabolism :=
  m.chemGlucose.chemToxins.chemEndorphins.chemAdrenaline

/-- `Metabolism.Update`, health block 1: starvation damage, or natural
healing when fed and rested (an `if`/`else if` in the source). -/
def Metabolism.healthStarveOrHeal (m : Metabolism) : Metabolism :=
  if m.hunger > 80 then { m with health := m.health - 0.1 }
  else if m.hunger < 50 ∧ m.energy > 30 then
    { m with health := clamp (m.health + m.healingRate) 0 100 }
  else m

/-- `Metabolism.Update`, health block 2: exhaustion damage. -/
def Metabolism.healthExhaustion (m : Metabolism) : Metabolism :=
  if m.energy < 20 then { m with health := m.health - 0.05 } else m

/-- `Metabolism.Update`, health block 3: toxin damage. -/
def Metabolism.healthToxinDamage (m : Metabolism) : Metabolism :=
  if m.toxins > 50 then { m with health := m.health - m.toxins * 0.001 } else m

/-- `Metabolism.Update(activityLevel)`: hunger growth, activity-scaled
energy depletion, chemical processing, the three health-effect blocks
(reading the hunger/energy/toxin values already updated in the same
call), and the final health clamp. -/
def Metabolism.update (m : Metabolism) (activityLevel : ℚ) : Metabolism :=
  let m2 := { m with
    hunger := clamp (m.hunger + m.hungerRate) 0 100
    energy := clamp (m.energy - m.energyRate * (1 + activityLevel)) 0 100 }
  let m6 := m2.processChemicals.healthStarveOrHeal.healthExhaustion.healthToxinDamage
  { m6 with health := clamp m6.health 0 100 }

/-- `Metabolism.Eat(nutritionValue)`. -/
def Metabolism.eat (m : Metabolism) (nutritionValue : ℚ) : Metabolism :=
  { m with glucose := clamp (m.glucose + nutritionValue) 0 100
           hunger := clamp (m.hunger - nutritionValue * 0.5) 0 100
           endorphins := clamp (m.endorphins + 5) 0 100
           lastMealTime := 0
           totalFoodEaten := m.totalFoodEaten + 1 }

/-- `Metabolism.Sleep()`, energy recovery. -/
def Metabolism.sleepEnergy (m : Metabolism) : Metabolism :=
  { m with energy := clamp (m.energy + 0.2) 0 100 }

/-- `Metabolism.Sleep()`, enhanced healing. -/
def Metabolism.sleepHealing (m : Metabolism) : Metabolism :=
  if m.health < 100 ∧ m.hunger < 70 then
    { m with health := clamp (m.health + m.healingRate * 2) 0 100 }
  else m

/-- `Metabolism.Sleep()`, faster toxin processing. -/
def Metabolism.sleepToxins (m : Metabolism) : Metabolism :=
  if m.toxins > 0 then { m with toxins := clamp (m.toxins - 0.1) 0 100 } else m

/-- `Metabolism.Sleep()`. -/
def Metabolism.sleep (m : Metabolism) : Metabolism :=
  { m.sleepEnergy.sleepHealing.sleepToxins with lastSleepTime := 0 }

/-- `Metabolism.IngestToxin(amount)`: the toxin level is clamped, but the
immediate health impact for large doses is applied without a clamp. -/
def Metabolism.ingestToxin (m : Metabolism) (amount : ℚ) : Metabolism :=
  let m1 := { m with toxins := clamp (m.toxins + amount) 0 100 }
  if amount > 20 then { m1 with health := m1.health - amount * 0.2 } else m1

/-- `Metabolism.Exercise(intensity)`. -/
def Metabolism.exercise (m : Metabolism) (intensity : ℚ) : Metabolism :=
  { m with energy := clamp (m.energy - intensity * 0.1) 0 100
           hunger := clamp (m.hunger + intensity * 0.05) 0 100
           endorphins := clamp (m.endorphins + intensity * 0.2) 0 100
           adrenaline := clamp (m.adrenaline + intensity * 0.3) 0 100 }

/-- One explicit metabolism operation (a tick update or one of the
explicit event mutators). -/
inductive MetaOp where
  | update (activityLevel : ℚ)
  | eat (nutritionValue : ℚ)
  | sleep
  | ingestToxin (amount : ℚ)
  | exercise (intensity : ℚ)
  deriving DecidableEq

/-- Apply one metabolism operation. -/
def applyMetaOp (m : Metabolism) : MetaOp → Metabolism
  | .update a => m.update a
  | .eat n => m.eat n
  | .sleep => m.sleep
  | .ingestToxin a => m.ingestToxin a
  | .exercise i => m.exercise i

/-- The metabolism state reached from `NewMetabolism` by a sequence of
operations. -/
def runMetaOps (ops : List MetaOp) : Metabolism :=
  ops.foldl applyMetaOp newMetabolism

/-- The range invariant that actually holds for metabolism scalars:
everything the code clamps stays in `[0,100]`, and health never exceeds
`100`; health has no preserved lower bound (see `IngestToxin`). -/
def metaInv (m : Metabolism) : Prop :=
  0 ≤ m.hunger ∧ m.hunger ≤ 100 ∧
  0 ≤ m.energy ∧ m.energy ≤ 100 ∧
  0 ≤ m.glucose ∧ m.glucose ≤ 100 ∧
  0 ≤ m.toxins ∧ m.toxins ≤ 100 ∧
  0 ≤ m.endorphins ∧ m.endorphins ≤ 100 ∧
  0 ≤ m.adrenaline ∧ m.adrenaline ≤ 100 ∧
  m.health ≤ 100

theorem metaInv_chemGlucose {m : Metabolism} (h : metaInv m) :
    metaInv m.chemGlucose := by
  obtain ⟨h1, h2, h3, h4, h5, h6, h7, h8, h9, h10, h11, h12, h13⟩ := h
  unfold Metabolism.chemGlucose
  split_ifs with hg
  · have hq1 := qmin_le_left m.glucose (0.1 : ℚ)
    have hq2 := qmin_nonneg (le_of_lt hg) (by norm_num : (0:ℚ) ≤ 0.1)
    exact ⟨le_clamp (by norm_num), clamp_le (by norm_num),
      le_clamp (by norm_num), clamp_le (by norm_num),
      show (0:ℚ) ≤ m.glucose - qmin m.glucose 0.1 by linarith,
      show m.glucose - qmin m.glucose 0.1 ≤ 100 by linarith,
      h7, h8, h9, h10, h11, h12, h13⟩
  · exact ⟨h1, h2, h3, h4, h5, h6, h7, h8, h9, h10, h11, h12, h13⟩

theorem metaInv_chemToxins {m : Metabolism} (h : metaInv m) :
    metaInv m.chemToxins := by
  obtain ⟨h1, h2, h3, h4, h5, h6, h7, h8, h9, h10, h11, h12, h13⟩ := h
  unfold Metabolism.chemToxins
  split_ifs with ht
  · exact ⟨h1, h2, h3, h4, h5, h6,
      le_clamp (by norm_num), clamp_le (by norm_num), h9, h10, h11, h12, h13⟩
  · exact ⟨h1, h2, h3, h4, h5, h6, h7, h8, h9, h10, h11, h12, h13⟩

theorem metaInv_chemEndorphins {m : Metabolism} (h : metaInv m) :
    metaInv m.chemEndorphins := by
  obtain ⟨h1, h2, h3, h4, h5, h6, h7, h8, h9, h10, h11, h12, h13⟩ := h
  exact ⟨h1, h2, h3, h4, h5, h6, h7, h8,
    le_clamp (by norm_num), clamp_le (by norm_num), h11, h12, h13⟩

theorem metaInv_chemAdrenaline {m : Metabolism} (h : metaInv m) :
    metaInv m.chemAdrenaline := by
  obtain ⟨h1, h2, h3, h4, h5, h6, h7, h8, h9, h10, h11, h12, h13⟩ := h
  exact ⟨h1, h2, h3, h4, h5, h6, h7, h8, h9, h10,
    le_clamp (by norm_num), clamp_le (by norm_num), h13⟩

theorem metaInv_processChemicals {m : Metabolism} (h : metaInv m) :
    metaInv m.processChemicals :=
  metaInv_chemAdrenaline (metaInv_chemEndorphins
    (metaInv_chemToxins (metaInv_chemGlucose h)))

theorem metaInv_healthStarveOrHeal {m : Metabolism} (h : metaInv m) :
    metaInv m.healthStarveOrHeal := by
  obtain ⟨h1, h2, h3, h4, h5, h6, h7, h8, h9, h10, h11, h12, h13⟩ := h
  unfold Metabolism.healthStarveOrHeal
  split_ifs with hs hf
  · exact ⟨h1, h2, h3, h4, h5, h6, h7, h8, h9, h10, h11, h12,
      show m.health - 0.1 ≤ 100 by linarith⟩
  · exact ⟨h1, h2, h3, h4, h5, h6, h7, h8, h9, h10, h11, h12,
      clamp_le (by norm_num)⟩
  · exact ⟨h1, h2, h3, h4, h5, h6, h7, h8, h9, h10, h11, h12, h13⟩

theorem metaInv_healthExhaustion {m : Metabolism} (h : metaInv m) :
    metaInv m.healthExhaustion := by
  obtain ⟨h1, h2, h3, h4, h5, h6, h7, h8, h9, h10, h11, h12, h13⟩ := h
  unfold Metabolism.healthExhaustion
  split_ifs with he
  · exact ⟨h1, h2, h3, h4, h5, h6, h7, h8, h9, h10, h11, h12,
      show m.health - 0.05 ≤ 100 by linarith⟩
  · exact ⟨h1, h2, h3, h4, h5, h6, h7, h8, h9, h10, h11, h12, h13⟩

theorem metaInv_healthToxinDamage {m : Metabolism} (h : metaInv m) :
    metaInv m.healthToxinDamage := by
  obtain ⟨h1, h2, h3, h4, h5, h6, h7, h8, h9, h10, h11, h12, h13⟩ := h
  unfold Metabolism.healthToxinDamage
  split_ifs with ht
  · exact ⟨h1, h2, h3, h4, h5, h6, h7, h8, h9, h10, h11, h12,
      show m.health - m.toxins * 0.001 ≤ 100 by nlinarith⟩
  · exact ⟨h1, h2, h3, h4, h5, h6, h7, h8, h9, h10, h11, h12, h13⟩

theorem metaInv_update {m : Metabolism} (h : metaInv m) (a : ℚ) :
    metaInv (m.update a) := by
  obtain ⟨h1, h2, h3, h4, h5, h6, h7, h8, h9, h10, h11, h12, h13⟩ := h
  have hm2 : metaInv { m with
      hunger := clamp (m.hunger + m.hungerRate) 0 100
      energy := clamp (m.energy - m.energyRate * (1 + a)) 0 100 } :=
    ⟨le_clamp (by norm_num), clamp_le (by norm_num),
     le_clamp (by norm_num), clamp_le (by norm_num),
     h5, h6, h7, h8, h9, h10, h11, h12, h13⟩
  have hm6 := metaInv_healthToxinDamage (metaInv_healthExhaustion
    (metaInv_healthStarveOrHeal (metaInv_processChemicals hm2)))
  obtain ⟨g1, g2, g3, g4, g5, g6, g7, g8, g9, g10, g11, g12, g13⟩ := hm6
  exact ⟨g1, g2, g3, g4, g5, g6, g7, g8, g9, g10, g11, g12,
    clamp_le (by norm_num)⟩

theorem metaInv_eat {m : Metabolism} (h : metaInv m) (n : ℚ) :
    metaInv (m.eat n) := by
  obtain ⟨h1, h2, h3, h4, h5, h6, h7, h8, h9, h10, h11, h12, h13⟩ := h
  exact ⟨le_clamp (by norm_num), clamp_le (by norm_num), h3, h4,
    le_clamp (by norm_num), clamp_le (by norm_num), h7, h8,
    le_clamp (by norm_num), clamp_le (by norm_num), h11, h12, h13⟩

theorem metaInv_sleep {m : Metabolism} (h : metaInv m) :
    metaInv m.sleep := by
  obtain ⟨h1, h2, h3, h4, h5, h6, h7, h8, h9, h10, h11, h12, h13⟩ := h
  have hs1 : metaInv m.sleepEnergy :=
    ⟨h1, h2, le_clamp (by norm_num), clamp_le (by norm_num),
     h5, h6, h7, h8, h9, h10, h11, h12, h13⟩
  have hs2 : metaInv m.sleepEnergy.sleepHealing := by
    obtain ⟨g1, g2, g3, g4, g5, g6, g7, g8, g9, g10, g11, g12, g13⟩ := hs1
    unfold Metabolism.sleepHealing
    split_ifs with hh
    · exact ⟨g1, g2, g3, g4, g5, g6, g7, g8, g9, g10, g11, g12,
        clamp_le (by norm_num)⟩
    · exact ⟨g1, g2, g3, g4, g5, g6, g7, g8, g9, g10, g11, g12, g13⟩
  have hs3 : metaInv m.sleepEnergy.sleepHealing.sleepToxins := by
    obtain ⟨g1, g2, g3, g4, g5, g6, g7, g8, g9, g10, g11, g12, g13⟩ := hs2
    unfold Metabolism.sleepToxins
    split_ifs with ht
    · exact ⟨g1, g2, g3, g4, g5, g6,
        le_clamp (by norm_num), clamp_le (by norm_num), g9, g10, g11, g12, g13⟩
    · exact ⟨g1, g2, g3, g4, g5, g6, g7, g8, g9, g10, g11, g12, g13⟩
  obtain ⟨g1, g2, g3, g4, g5, g6, g7, g8, g9, g10, g11, g12, g13⟩ := hs3
  exact ⟨g1, g2, g3, g4, g5, g6, g7, g8, g9, g10, g11, g12, g13⟩

theorem metaInv_ingestToxin {m : Metabolism} (h : metaInv m) (a : ℚ) :
    metaInv (m.ingestToxin a) := by
  obtain ⟨h1, h2, h3, h4, h5, h6, h7, h8, h9, h10, h11, h12, h13⟩ := h
  unfold Metabolism.ingestToxin
  split_ifs with hbig
  · exact ⟨h1, h2, h3, h4, h5, h6,
      le_clamp (by norm_num), clamp_le (by norm_num), h9, h10, h11, h12,
      show m.health - a * 0.2 ≤ 100 by linarith⟩
  · exact ⟨h1, h2, h3, h4, h5, h6,
      le_clamp (by norm_num), clamp_le (by norm_num), h9, h10, h11, h12, h13⟩

theorem metaInv_exercise {m : Metabolism} (h : metaInv m) (i : ℚ) :
    metaInv (m.exercise i) := by
  obtain ⟨h1, h2, h3, h4, h5, h6, h7, h8, h9, h10, h11, h12, h13⟩ := h
  exact ⟨le_clamp (by norm_num), clamp_le (by norm_num),
    le_clamp (by norm_num), clamp_le (by norm_num), h5, h6, h7, h8,
    le_clamp (by norm_num), clamp_le (by norm_num),
    le_clamp (by norm_num), clamp_le (by norm_num), h13⟩

theorem metaInv_applyMetaOp {m : Metabolism} (h : metaInv m) (op : MetaOp) :
    metaInv (applyMetaOp m op) := by
  cases op with
  | update a => exact metaInv_update h a
  | eat n => exact metaInv_eat h n
  | sleep => exact metaInv_sleep h
  | ingestToxin a => exact metaInv_ingestToxin h a
  | exercise i => exact metaInv_exercise h i

theorem metaInv_foldl {m : Metabolism} (h : metaInv m) (ops : List MetaOp) :
    metaInv (ops.foldl applyMetaOp m) := by
  induction ops generalizing m with
  | nil => exact h
  | cons op rest ih => exact ih (metaInv_applyMetaOp h op)

theorem metaInv_newMetabolism : metaInv newMetabolism := by
  refine ⟨?_, ?_, ?_, ?_, ?_, ?_, ?_, ?_, ?_, ?_, ?_, ?_, ?_⟩ <;>
    norm_num [newMetabolism]

/-! ## Emotions (`creature/emotions.go`, shipped alongside `movement.go`) -/

/-- An `EmotionalEvent` record. -/
structure EmotionalEvent where
  eventType : String
  intensity : ℚ
  timestamp : ℚ
  deriving DecidableEq

/-- The `Emotions` struct: four primary and four secondary scalars,
parameters, thresholds, social bonds and the recent-event ring. -/
structure Emotions where
  happiness : ℚ
  fear : ℚ
  anger : ℚ
  curiosity : ℚ
  loneliness : ℚ
  boredom : ℚ
  love : ℚ
  jealousy : ℚ
  baseHappiness : ℚ
  emotionalInertia : ℚ
  fearThreshold : ℚ
  angerThreshold : ℚ
  socialBonds : List (String × ℚ)
  recentEvents : List EmotionalEvent
  deriving DecidableEq

/-- `NewEmotions`. -/
def newEmotions : Emotions :=
  { happiness := 30, fear := 0, anger := 0, curiosity := 50
    loneliness := 20, boredom := 30, love := 0, jealousy := 0
    baseHappiness := 0, emotionalInertia := 0.9
    fearThreshold := 50, angerThreshold := 60
    socialBonds := [], recentEvents := [] }

/-- `addEvent`: append the event, keep only the 10 most recent. -/
def Emotions.addEvent (e : Emotions) (eventType : String) (intensity : ℚ) :
    Emotions :=
  let events := e.recentEvents ++ [⟨eventType, intensity, 0⟩]
  { e with recentEvents := if events.length > 10 then events.drop 1 else events }

/-- `AdjustHappiness`: clamp, and record an event for large changes. -/
def Emotions.adjustHappiness (e : Emotions) (amount : ℚ) : Emotions :=
  let e1 := { e with happiness := clamp (e.happiness + amount) (-100) 100 }
  if |amount| > 5 then e1.addEvent "happiness" amount else e1

/-- `AdjustFear`: clamp, and record an event past the fear threshold. -/
def Emotions.adjustFear (e : Emotions) (amount : ℚ) : Emotions :=
  let e1 := { e with fear := clamp (e.fear + amount) (-100) 100 }
  if e1.fear > e1.fearThreshold then e1.addEvent "fear_response" e1.fear else e1

/-- `AdjustAnger`: clamp, and record an event past the anger threshold. -/
def Emotions.adjustAnger (e : Emotions) (amount : ℚ) : Emotions :=
  let e1 := { e with anger := clamp (e.anger + amount) (-100) 100 }
  if e1.anger > e1.angerThreshold then e1.addEvent "anger_response" e1.anger
  else e1

/-- `AdjustCuriosity`. -/
def Emotions.adjustCuriosity (e : Emotions) (amount : ℚ) : Emotions :=
  { e with curiosity := clamp (e.curiosity + amount) (-100) 100 }

/-- `applyInertia`: primaries decay by the inertia factor, secondaries by
a slightly faster factor. -/
def Emotions.applyInertia (e : Emotions) : Emotions :=
  { e with happiness := e.happiness * e.emotionalInertia
           fear := e.fear * e.emotionalInertia
           anger := e.anger * e.emotionalInertia
           curiosity := e.curiosity * e.emotionalInertia
           loneliness := e.loneliness * (e.emotionalInertia * 0.9)
           boredom := e.boredom * (e.emotionalInertia * 0.9)
           love := e.love * (e.emotionalInertia * 0.9)
           jealousy := e.jealousy * (e.emotionalInertia * 0.9) }

/-- `updateFromMetabolism`. -/
def Emotions.updateFromMetabolism (e : Emotions) (m : Metabolism) : Emotions :=
  let e1 := if m.hunger > 70 then (e.adjustHappiness (-5)).adjustAnger 3 else e
  let e2 :=
    if m.energy < 30 then
      { e1 with boredom := e1.boredom + 2, curiosity := e1.curiosity - 3 }
    else e1
  let e3 :=
    if m.health < 50 then
      (e2.adjustFear ((50 - m.health) * 0.2)).adjustHappiness (-3)
    else e2
  let e4 := e3.adjustHappiness (m.endorphins * 0.1)
  if m.adrenaline > 50 then
    (e4.adjustFear (m.adrenaline * 0.05)).adjustAnger (m.adrenaline * 0.03)
  else e4

/-- `updateFromBrainActivity`: brain output indexes `OutputPlay = 5`,
`OutputSpeak = 6`, `OutputMoveLeft = 0`, `OutputMoveRight = 1`. -/
def Emotions.updateFromBrainActivity (e : Emotions) (brainOutput : List ℚ) :
    Emotions :=
  let e1 :=
    if brainOutput.getD 5 0 > 0.5 then
      let ea := e.adjustHappiness 5
      { ea with boredom := clamp (ea.boredom - 10) (-100) 100 }
    else e
  let e2 :=
    if brainOutput.getD 6 0 > 0.5 then
      ({ e1 with loneliness := clamp (e1.loneliness - 5) (-100) 100
       } : Emotions).adjustHappiness 2
    else e1
  if max (brainOutput.getD 0 0) (brainOutput.getD 1 0) > 0.5 then
    { e2 with curiosity := clamp (e2.curiosity + 1) (-100) 100
              boredom := clamp (e2.boredom - 2) (-100) 100 }
  else e2

/-- `updateSecondaryEmotions`. -/
def Emotions.updateSecondaryEmotions (e : Emotions) : Emotions :=
  let e1 : Emotions := { e with loneliness := clamp (e.loneliness + 0.1) (-100) 100 }
  let e2 : Emotions :=
    if |e1.curiosity| < 20 then
      { e1 with boredom := clamp (e1.boredom + 0.2) (-100) 100 }
    else e1
  let maxBond : ℚ :=
    e2.socialBonds.foldl (fun mb p => if p.2 > mb then p.2 else mb) (0 : ℚ)
  let e3 : Emotions := { e2 with love := clamp (maxBond * 100) (-100) 100 }
  let e4 : Emotions :=
    if e3.happiness > 50 then
      { e3 with fear := e3.fear * 0.95, anger := e3.anger * 0.95
                loneliness := e3.loneliness * 0.95 }
    else e3
  if e4.fear > 70 then
    { e4 with curiosity := e4.curiosity * 0.8, happiness := e4.happiness * 0.9 }
  else e4

/-- `applyBaselineDrift`. -/
def Emotions.applyBaselineDrift (e : Emotions) : Emotions :=
  { e with happiness := e.happiness + (e.baseHappiness - e.happiness) * 0.01
           fear := e.fear + (0 - e.fear) * 0.01
           anger := e.anger + (0 - e.anger) * 0.01 }

/-- `clampEmotions`: re-clamp all eight scalars. -/
def Emotions.clampEmotions (e : Emotions) : Emotions :=
  { e with happiness := clamp e.happiness (-100) 100
           fear := clamp e.fear (-100) 100
           anger := clamp e.anger (-100) 100
           curiosity := clamp e.curiosity (-100) 100
           loneliness := clamp e.loneliness (-100) 100
           boredom := clamp e.boredom (-100) 100
           love := clamp e.love (-100) 100
           jealousy := clamp e.jealousy (-100) 100 }

/-- `cleanOldEvents`: keep the last 10 events. -/
def Emotions.cleanOldEvents (e : Emotions) : Emotions :=
  if e.recentEvents.length > 10 then
    { e with recentEvents := e.recentEvents.drop (e.recentEvents.length - 10) }
  else e

/-- `Emotions.Update(metabolism, brainOutput)`: the fixed pipeline. -/
def Emotions.update (e : Emotions) (m : Metabolism) (brainOutput : List ℚ) :
    Emotions :=
  (((((e.applyInertia.updateFromMetabolism m).updateFromBrainActivity
    brainOutput).updateSecondaryEmotions.applyBaselineDrift).clampEmotions
    ).cleanOldEvents)

/-- One emotions operation from the claim: a tick update or one of the
four adjustment mutators. -/
inductive EmoOp where
  | update (m : Metabolism) (brainOutput : List ℚ)
  | adjustHappiness (amount : ℚ)
  | adjustFear (amount : ℚ)
  | adjustAnger (amount : ℚ)
  | adjustCuriosity (amount : ℚ)

/-- Apply one emotions operation. -/
def applyEmoOp (e : Emotions) : EmoOp → Emotions
  | .update m out => e.update m out
  | .adjustHappiness a => e.adjustHappiness a
  | .adjustFear a => e.adjustFear a
  | .adjustAnger a => e.adjustAnger a
  | .adjustCuriosity a => e.adjustCuriosity a

/-- The emotions state reached from `NewEmotions` by a sequence of
operations. -/
def runEmoOps (ops : List EmoOp) : Emotions :=
  ops.foldl applyEmoOp newEmotions

/-- All eight emotion scalars lie in `[-100, 100]`. -/
def emoInv (e : Emotions) : Prop :=
  -100 ≤ e.happiness ∧ e.happiness ≤ 100 ∧
  -100 ≤ e.fear ∧ e.fear ≤ 100 ∧
  -100 ≤ e.anger ∧ e.anger ≤ 100 ∧
  -100 ≤ e.curiosity ∧ e.curiosity ≤ 100 ∧
  -100 ≤ e.loneliness ∧ e.loneliness ≤ 100 ∧
  -100 ≤ e.boredom ∧ e.boredom ≤ 100 ∧
  -100 ≤ e.love ∧ e.love ≤ 100 ∧
  -100 ≤ e.jealousy ∧ e.jealousy ≤ 100

theorem emoInv_clampEmotions (e : Emotions) : emoInv e.clampEmotions :=
  ⟨le_clamp (by norm_num), clamp_le (by norm_num),
   le_clamp (by norm_num), clamp_le (by norm_num),
   le_clamp (by norm_num), clamp_le (by norm_num),
   le_clamp (by norm_num), clamp_le (by norm_num),
   le_clamp (by norm_num), clamp_le (by norm_num),
   le_clamp (by norm_num), clamp_le (by norm_num),
   le_clamp (by norm_num), clamp_le (by norm_num),
   le_clamp (by norm_num), clamp_le (by norm_num)⟩

theorem emoInv_cleanOldEvents {e : Emotions} (h : emoInv e) :
    emoInv e.cleanOldEvents := by
  unfold Emotions.cleanOldEvents
  split_ifs with hl
  · exact h
  · exact h

theorem emoInv_update (e : Emotions) (m : Metabolism) (out : List ℚ) :
    emoInv (e.update m out) :=
  emoInv_cleanOldEvents (emoInv_clampEmotions _)

theorem emoInv_addEvent {e : Emotions} (h : emoInv e) (t : String) (i : ℚ) :
    emoInv (e.addEvent t i) := by
  obtain ⟨h1, h2, h3, h4, h5, h6, h7, h8, h9, h10, h11, h12, h13, h14, h15, h16⟩ := h
  simp only [Emotions.addEvent]
  split_ifs with hl <;>
    exact ⟨h1, h2, h3, h4, h5, h6, h7, h8, h9, h10, h11, h12, h13, h14, h15, h16⟩

theorem emoInv_adjustHappiness {e : Emotions} (h : emoInv e) (a : ℚ) :
    emoInv (e.adjustHappiness a) := by
  obtain ⟨h1, h2, h3, h4, h5, h6, h7, h8, h9, h10, h11, h12, h13, h14, h15, h16⟩ := h
  have hbase : emoInv { e with happiness := clamp (e.happiness + a) (-100) 100 } :=
    ⟨le_clamp (by norm_num), clamp_le (by norm_num),
     h3, h4, h5, h6, h7, h8, h9, h10, h11, h12, h13, h14, h15, h16⟩
  simp only [Emotions.adjustHappiness]
  split_ifs with hl
  · exact emoInv_addEvent hbase _ _
  · exact hbase

theorem emoInv_adjustFear {e : Emotions} (h : emoInv e) (a : ℚ) :
    emoInv (e.adjustFear a) := by
  obtain ⟨h1, h2, h3, h4, h5, h6, h7, h8, h9, h10, h11, h12, h13, h14, h15, h16⟩ := h
  have hbase : emoInv { e with fear := clamp (e.fear + a) (-100) 100 } :=
    ⟨h1, h2, le_clamp (by norm_num), clamp_le (by norm_num),
     h5, h6, h7, h8, h9, h10, h11, h12, h13, h14, h15, h16⟩
  simp only [Emotions.adjustFear]
  split_ifs with hl
  · exact emoInv_addEvent hbase _ _
  · exact hbase

theorem emoInv_adjustAnger {e : Emotions} (h : emoInv e) (a : ℚ) :
    emoInv (e.adjustAnger a) := by
  obtain ⟨h1, h2, h3, h4, h5, h6, h7, h8, h9, h10, h11, h12, h13, h14, h15, h16⟩ := h
  have hbase : emoInv { e with anger := clamp (e.anger + a) (-100) 100 } :=
    ⟨h1, h2, h3, h4, le_clamp (by norm_num), clamp_le (by norm_num),
     h7, h8, h9, h10, h11, h12, h13, h14, h15, h16⟩
  simp only [Emotions.adjustAnger]
  split_ifs with hl
  · exact emoInv_addEvent hbase _ _
  · exact hbase

theorem emoInv_adjustCuriosity {e : Emotions} (h : emoInv e) (a : ℚ) :
    emoInv (e.adjustCuriosity a) := by
  obtain ⟨h1, h2, h3, h4, h5, h6, h7, h8, h9, h10, h11, h12, h13, h14, h15, h16⟩ := h
  exact ⟨h1, h2, h3, h4, h5, h6, le_clamp (by norm_num), clamp_le (by norm_num),
    h9, h10, h11, h12, h13, h14, h15, h16⟩

theorem emoInv_applyEmoOp {e : Emotions} (h : emoInv e) (op : EmoOp) :
    emoInv (applyEmoOp e op) := by
  cases op with
  | update m out => exact emoInv_update e m out
  | adjustHappiness a => exact emoInv_adjustHappiness h a
  | adjustFear a => exact emoInv_adjustFear h a
  | adjustAnger a => exact emoInv_adjustAnger h a
  | adjustCuriosity a => exact emoInv_adjustCuriosity h a

theorem emoInv_foldl {e : Emotions} (h : emoInv e) (ops : List EmoOp) :
    emoInv (ops.foldl applyEmoOp e) := by
  induction ops generalizing e with
  | nil => exact h
  | cons op rest ih => exact ih (emoInv_applyEmoOp h op)

theorem emoInv_newEmotions : emoInv newEmotions := by
  refine ⟨?_, ?_, ?_, ?_, ?_, ?_, ?_, ?_, ?_, ?_, ?_, ?_, ?_, ?_, ?_, ?_⟩ <;>
    norm_num [newEmotions]

/-- The reachable state used to refute the claimed `[0,100]` invariant:
six consecutive `IngestToxin(100)` calls on a fresh metabolism. -/
def toxinOverdose : List MetaOp := List.replicate 6 (MetaOp.ingestToxin 100)

/-- C1 (counterexample).  The claim that every Metabolism scalar stays in
`[0,100]` after every operation fails on the code: `IngestToxin` applies
its large-dose health damage without clamping, so six `IngestToxin(100)`
calls on a fresh metabolism drive Health to `-20 < 0`. -/
theorem c1_counterexample :
    (runMetaOps toxinOverdose).health = -20 ∧ (runMetaOps toxinOverdose).health < 0 := by
  norm_num [toxinOverdose, runMetaOps, applyMetaOp, Metabolism.ingestToxin,
    newMetabolism, clamp, List.replicate]

/-- C1 (amended).  For every reachable Metabolism state, Hunger, Energy,
Glucose, Toxins, Endorphins and Adrenaline stay in `[0,100]` and Health
stays `≤ 100` (Health can drop below `0` through `IngestToxin`, which is
the one unclamped write); and for every reachable Emotions state, all
eight emotion scalars stay in `[-100,100]` after every `Update` and every
`AdjustHappiness`/`AdjustFear`/`AdjustAnger`/`AdjustCuriosity` call. -/
theorem c1_clamp_ranges :
    (∀ ops : List MetaOp, metaInv (runMetaOps ops)) ∧
    (∀ ops : List EmoOp, emoInv (runEmoOps ops)) :=
  ⟨fun ops => metaInv_foldl metaInv_newMetabolism ops,
   fun ops => emoInv_foldl emoInv_newEmotions ops⟩

/-- C9.  `Metabolism.Eat` leaves Health, Energy, Toxins, Adrenaline — and
the rates and the sleep timer — unchanged, for every state and nutrition
value; it only writes Glucose, Hunger, Endorphins, LastMealTime and
TotalFoodEaten. -/
theorem c9_eat_frame (m : Metabolism) (n : ℚ) :
    (m.eat n).health = m.health ∧
    (m.eat n).energy = m.energy ∧
    (m.eat n).toxins = m.toxins ∧
    (m.eat n).adrenaline = m.adrenaline ∧
    (m.eat n).hungerRate = m.hungerRate ∧
    (m.eat n).energyRate = m.energyRate ∧
    (m.eat n).healingRate = m.healingRate ∧
    (m.eat n).lastSleepTime = m.lastSleepTime :=
  ⟨rfl, rfl, rfl, rfl, rfl, rfl, rfl, rfl⟩

/-! ## Genetics (`creature/genetics.go`) -/

/-- The `Genetics` struct: trait genes, appearance channels, pattern tag
and the dominance map.  Go maps are modelled as association lists. -/
structure Genetics where
  genes : List (String × ℚ)
  colorR : ℚ
  colorG : ℚ
  colorB : ℚ
  pattern : String
  dominantGenes : List (String × Bool)
  deriving DecidableEq

/-- The twelve gene trait names. -/
def defaultGeneNames : List String :=
  ["metabolism_rate", "movement_speed", "learning_rate", "lifespan",
   "fertility", "strength", "happiness_bias", "fear_threshold",
   "anger_threshold", "curiosity", "sociability", "aggression"]

/-- `NewGenetics` / `initializeDefaultGenes`: every gene at the neutral
value `0.5` with a randomly drawn dominance flag (`domInit` is the
random draw), and the default appearance. -/
def newGenetics (domInit : String → Bool) : Genetics :=
  { genes := defaultGeneNames.map (fun n => (n, 0.5))
    colorR := 0.5, colorG := 0.7, colorB := 0.3
    pattern := "solid"
    dominantGenes := defaultGeneNames.map (fun n => (n, domInit n)) }

/-- Go map read with zero default: `parent.Genes[gene]`. -/
def lookupGene (l : List (String × ℚ)) (k : String) : ℚ :=
  (l.lookup k).getD 0

/-- Go map read with zero default: `parent.DominantGenes[gene]`. -/
def lookupDom (l : List (String × Bool)) (k : String) : Bool :=
  (l.lookup k).getD false

/-- Go map write `m[k] = v` on an association list: overwrite the key if
present, else append. -/
def insertAssoc {α : Type} (l : List (String × α)) (k : String) (v : α) :
    List (String × α) :=
  if (l.lookup k).isSome then
    l.map (fun p => if p.1 = k then (k, v) else p)
  else l ++ [(k, v)]

theorem mem_of_lookup_eq_some {α : Type} {l : List (String × α)} {k : String}
    {v : α} (h : l.lookup k = some v) : (k, v) ∈ l := by
  induction l with
  | nil => simp [List.lookup] at h
  | cons p rest ih =>
    rcases p with ⟨a, b⟩
    by_cases hk : k = a
    · subst hk
      simp [List.lookup] at h
      simp [h]
    · have hba : (k == a) = false := beq_false_of_ne hk
      simp [List.lookup, hba] at h
      exact List.mem_cons_of_mem _ (ih h)

theorem lookupGene_range {l : List (String × ℚ)} {k : String}
    (h : ∀ p ∈ l, 0 ≤ p.2 ∧ p.2 ≤ 1) :
    0 ≤ lookupGene l k ∧ lookupGene l k ≤ 1 := by
  unfold lookupGene
  cases hl : l.lookup k with
  | none => norm_num
  | some v => exact h _ (mem_of_lookup_eq_some hl)

theorem insertAssoc_forall {α : Type} {P : α → Prop} {l : List (String × α)}
    {k : String} {v : α} (hl : ∀ p ∈ l, P p.2) (hv : P v) :
    ∀ p ∈ insertAssoc l k v, P p.2 := by
  intro p hp
  unfold insertAssoc at hp
  split_ifs at hp with hs
  · obtain ⟨q, hq, hpq⟩ := List.mem_map.mp hp
    by_cases hqk : q.1 = k
    · simp [hqk] at hpq; subst hpq; exact hv
    · simp [hqk] at hpq; subst hpq; exact hl _ hq
  · rcases List.mem_append.mp hp with hp1 | hp1
    · exact hl _ hp1
    · simp at hp1; subst hp1; exact hv

/-- The random inputs a `Genetics.Mutate()` call consumes, made explicit:
per-gene mutation decision, perturbation and dominance-flip decision, the
appearance mutation decision and per-channel perturbations, and the
pattern mutation decision and choice. -/
structure MutationOracle where
  geneMut : String → Bool
  geneChange : String → ℚ
  geneFlip : String → Bool
  colorMut : Bool
  colorChangeR : ℚ
  colorChangeG : ℚ
  colorChangeB : ℚ
  patternMut : Bool
  patternChoice : ℕ

/-- The random inputs a `Combine` call consumes, made explicit: the
child's `NewGenetics` dominance draws, the 75%-dominance re-rolls, the
pattern coin flip, and the oracle for the final `Mutate` pass. -/
structure CombineOracle where
  newDomInit : String → Bool
  domRoll : String → Bool
  patternFlip : Bool
  mutOracle : MutationOracle

/-- One iteration of the gene loop in `Combine`: Mendelian-style
resolution of a single gene. -/
def combineGeneStep (p1 p2 : Genetics) (domRoll : String → Bool)
    (child : Genetics) (gene : String) : Genetics :=
  let p1Value := lookupGene p1.genes gene
  let p2Value := lookupGene p2.genes gene
  let p1Dom := lookupDom p1.dominantGenes gene
  let p2Dom := lookupDom p2.dominantGenes gene
  if p1Dom && p2Dom then
    { child with genes := insertAssoc child.genes gene ((p1Value + p2Value) / 2)
                 dominantGenes := insertAssoc child.dominantGenes gene true }
  else if p1Dom && !p2Dom then
    { child with genes := insertAssoc child.genes gene p1Value
                 dominantGenes := insertAssoc child.dominantGenes gene (domRoll gene) }
  else if !p1Dom && p2Dom then
    { child with genes := insertAssoc child.genes gene p2Value
                 dominantGenes := insertAssoc child.dominantGenes gene (domRoll gene) }
  else
    { child with genes := insertAssoc child.genes gene ((p1Value + p2Value) / 2)
                 dominantGenes := insertAssoc child.dominantGenes gene false }

/-- `Combine(parent1, parent2)` up to, but not including, the final
`Mutate` pass: start from a fresh child, run the gene loop over
`parent1`'s genes, then average the appearance channels and coin-flip the
pattern. -/
def combinePre (p1 p2 : Genetics) (O : CombineOracle) : Genetics :=
  let child := (p1.genes.map Prod.fst).foldl
    (combineGeneStep p1 p2 O.domRoll) (newGenetics O.newDomInit)
  { child with colorR := (p1.colorR + p2.colorR) / 2
               colorG := (p1.colorG + p2.colorG) / 2
               colorB := (p1.colorB + p2.colorB) / 2
               pattern := if O.patternFlip then p1.pattern else p2.pattern }

/-- One iteration of the gene loop in `Mutate`: perturb-and-clamp the
gene value with probability `mutationRate`, and then flip its dominance
with the small independent probability. -/
def mutateGeneStep (O : MutationOracle) (g : Genetics) (gene : String) :
    Genetics :=
  if O.geneMut gene then
    let g1 : Genetics := { g with genes := insertAssoc g.genes gene (clamp (lookupGene g.genes gene + O.geneChange gene) 0 1) }
    if O.geneFlip gene then
      { g1 with dominantGenes := insertAssoc g1.dominantGenes gene (!(lookupDom g1.dominantGenes gene)) }
    else g1
  else g

/-- The fixed pattern palette used by pattern mutation. -/
def genePatternChoices : List String := ["solid", "spotted", "striped"]

/-- `Genetics.Mutate()`, the gene loop. -/
def Genetics.mutateGenesPass (g : Genetics) (O : MutationOracle) : Genetics :=
  (g.genes.map Prod.fst).foldl (mutateGeneStep O) g

/-- `Genetics.Mutate()`, the appearance mutation. -/
def Genetics.mutateAppearance (g : Genetics) (O : MutationOracle) : Genetics :=
  if O.colorMut then
    { g with colorR := clamp (g.colorR + O.colorChangeR) 0 1
             colorG := clamp (g.colorG + O.colorChangeG) 0 1
             colorB := clamp (g.colorB + O.colorChangeB) 0 1 }
  else g

/-- `Genetics.Mutate()`, the rare pattern mutation. -/
def Genetics.mutatePattern (g : Genetics) (O : MutationOracle) : Genetics :=
  if O.patternMut then
    { g with pattern := genePatternChoices.getD O.patternChoice g.pattern }
  else g

/-- `Genetics.Mutate()`: the gene loop, the appearance mutation and the
rare pattern mutation, in source order. -/
def Genetics.mutate (g : Genetics) (O : MutationOracle) : Genetics :=
  ((g.mutateGenesPass O).mutateAppearance O).mutatePattern O

/-- `Combine(parent1, parent2)`: the recombination followed by the
internal `Mutate` pass. -/
def combine (p1 p2 : Genetics) (O : CombineOracle) : Genetics :=
  (combinePre p1 p2 O).mutate O.mutOracle

/-- All gene values and the three appearance channels lie in `[0,1]`. -/
def genesInRange (g : Genetics) : Prop :=
  (∀ p ∈ g.genes, 0 ≤ p.2 ∧ p.2 ≤ 1) ∧
  (0 ≤ g.colorR ∧ g.colorR ≤ 1) ∧
  (0 ≤ g.colorG ∧ g.colorG ≤ 1) ∧
  (0 ≤ g.colorB ∧ g.colorB ≤ 1)

theorem genesInRange_newGenetics (domInit : String → Bool) :
    genesInRange (newGenetics domInit) := by
  refine ⟨?_, by norm_num [newGenetics], by norm_num [newGenetics],
    by norm_num [newGenetics]⟩
  intro p hp
  simp only [newGenetics, List.mem_map] at hp
  obtain ⟨n, _, rfl⟩ := hp
  norm_num

theorem combineGeneStep_genes {p1 p2 : Genetics} {domRoll : String → Bool}
    {child : Genetics} (gene : String)
    (hc : ∀ p ∈ child.genes, 0 ≤ p.2 ∧ p.2 ≤ 1)
    (h1 : ∀ p ∈ p1.genes, 0 ≤ p.2 ∧ p.2 ≤ 1)
    (h2 : ∀ p ∈ p2.genes, 0 ≤ p.2 ∧ p.2 ≤ 1) :
    ∀ p ∈ (combineGeneStep p1 p2 domRoll child gene).genes, 0 ≤ p.2 ∧ p.2 ≤ 1 := by
  have hv1 := lookupGene_range (k := gene) h1
  have hv2 := lookupGene_range (k := gene) h2
  simp only [combineGeneStep]
  split_ifs <;>
    · refine insertAssoc_forall (P := fun v => 0 ≤ v ∧ v ≤ 1) hc ?_
      constructor <;> linarith [hv1.1, hv1.2, hv2.1, hv2.2]

theorem combineGeneStep_colors {p1 p2 : Genetics} {domRoll : String → Bool}
    {child : Genetics} (gene : String) :
    (combineGeneStep p1 p2 domRoll child gene).colorR = child.colorR ∧
    (combineGeneStep p1 p2 domRoll child gene).colorG = child.colorG ∧
    (combineGeneStep p1 p2 domRoll child gene).colorB = child.colorB := by
  simp only [combineGeneStep]
  split_ifs <;> exact ⟨rfl, rfl, rfl⟩

theorem combineFold_genes {p1 p2 : Genetics} {domRoll : String → Bool}
    (keys : List String) {child : Genetics}
    (hc : ∀ p ∈ child.genes, 0 ≤ p.2 ∧ p.2 ≤ 1)
    (h1 : ∀ p ∈ p1.genes, 0 ≤ p.2 ∧ p.2 ≤ 1)
    (h2 : ∀ p ∈ p2.genes, 0 ≤ p.2 ∧ p.2 ≤ 1) :
    ∀ p ∈ (keys.foldl (combineGeneStep p1 p2 domRoll) child).genes,
      0 ≤ p.2 ∧ p.2 ≤ 1 := by
  induction keys generalizing child with
  | nil => exact hc
  | cons gene rest ih => exact ih (combineGeneStep_genes gene hc h1 h2)

theorem genesInRange_combinePre {p1 p2 : Genetics} (O : CombineOracle)
    (h1 : genesInRange p1) (h2 : genesInRange p2) :
    genesInRange (combinePre p1 p2 O) := by
  obtain ⟨hg1, hr1, hG1, hb1⟩ := h1
  obtain ⟨hg2, hr2, hG2, hb2⟩ := h2
  refine ⟨?_, ?_, ?_, ?_⟩
  · exact combineFold_genes _ (genesInRange_newGenetics O.newDomInit).1 hg1 hg2
  · exact ⟨by simp only [combinePre]; linarith [hr1.1, hr2.1],
      by simp only [combinePre]; linarith [hr1.2, hr2.2]⟩
  · exact ⟨by simp only [combinePre]; linarith [hG1.1, hG2.1],
      by simp only [combinePre]; linarith [hG1.2, hG2.2]⟩
  · exact ⟨by simp only [combinePre]; linarith [hb1.1, hb2.1],
      by simp only [combinePre]; linarith [hb1.2, hb2.2]⟩

theorem mutateGeneStep_preserves {O : MutationOracle} {g : Genetics}
    (gene : String) (h : genesInRange g) :
    genesInRange (mutateGeneStep O g gene) := by
  obtain ⟨hg, hr, hG, hb⟩ := h
  have hgenes : ∀ p ∈ insertAssoc g.genes gene
      (clamp (lookupGene g.genes gene + O.geneChange gene) 0 1),
      0 ≤ p.2 ∧ p.2 ≤ 1 :=
    insertAssoc_forall (P := fun v => 0 ≤ v ∧ v ≤ 1) hg
      ⟨le_clamp (by norm_num), clamp_le (by norm_num)⟩
  simp only [mutateGeneStep]
  split_ifs
  · exact ⟨hgenes, hr, hG, hb⟩
  · exact ⟨hgenes, hr, hG, hb⟩
  · exact ⟨hg, hr, hG, hb⟩

theorem mutateFold_preserves {O : MutationOracle} (keys : List String)
    {g : Genetics} (h : genesInRange g) :
    genesInRange (keys.foldl (mutateGeneStep O) g) := by
  induction keys generalizing g with
  | nil => exact h
  | cons gene rest ih => exact ih (mutateGeneStep_preserves gene h)

theorem genesInRange_mutateAppearance {g : Genetics} (O : MutationOracle)
    (h : genesInRange g) : genesInRange (g.mutateAppearance O) := by
  obtain ⟨hg, hr, hG, hb⟩ := h
  unfold Genetics.mutateAppearance
  split_ifs
  · exact ⟨hg, ⟨le_clamp (by norm_num), clamp_le (by norm_num)⟩,
      ⟨le_clamp (by norm_num), clamp_le (by norm_num)⟩,
      ⟨le_clamp (by norm_num), clamp_le (by norm_num)⟩⟩
  · exact ⟨hg, hr, hG, hb⟩

theorem genesInRange_mutatePattern {g : Genetics} (O : MutationOracle)
    (h : genesInRange g) : genesInRange (g.mutatePattern O) := by
  obtain ⟨hg, hr, hG, hb⟩ := h
  unfold Genetics.mutatePattern
  split_ifs
  · exact ⟨hg, hr, hG, hb⟩
  · exact ⟨hg, hr, hG, hb⟩

theorem genesInRange_mutate {g : Genetics} (O : MutationOracle)
    (h : genesInRange g) : genesInRange (g.mutate O) :=
  genesInRange_mutatePattern O (genesInRange_mutateAppearance O
    (mutateFold_preserves (O := O) (g.genes.map Prod.fst) h))

/-- C3.  For parents whose gene values and appearance channels all lie in
`[0,1]`, every gene value and appearance channel of the `Combine` child
lies in `[0,1]`, both before the internal `Mutate` pass (`combinePre`)
and after it (`combine`), for every outcome of the random draws. -/
theorem c3_combine_in_range (p1 p2 : Genetics) (O : CombineOracle)
    (h1 : genesInRange p1) (h2 : genesInRange p2) :
    genesInRange (combinePre p1 p2 O) ∧ genesInRange (combine p1 p2 O) :=
  ⟨genesInRange_combinePre O h1 h2,
   genesInRange_mutate O.mutOracle (genesInRange_combinePre O h1 h2)⟩

/-- A concrete parent for the C3 witness. -/
def gParentA : Genetics := newGenetics (fun _ => true)

/-- A concrete random-draw outcome for the C3 witness. -/
def oracleA : CombineOracle :=
  { newDomInit := fun _ => false
    domRoll := fun _ => true
    patternFlip := true
    mutOracle := { geneMut := fun _ => true, geneChange := fun _ => 0.07
                   geneFlip := fun _ => false, colorMut := true
                   colorChangeR := 0.05, colorChangeG := -0.05, colorChangeB := 0
                   patternMut := false, patternChoice := 0 } }

/-- C3 (witness): the theorem applied at a concrete pair of parents and a
concrete random-draw outcome. -/
theorem c3_witness :
    genesInRange gParentA ∧
    genesInRange (combinePre gParentA gParentA oracleA) ∧
    genesInRange (combine gParentA gParentA oracleA) :=
  ⟨genesInRange_newGenetics _,
   (c3_combine_in_range gParentA gParentA oracleA
     (genesInRange_newGenetics _) (genesInRange_newGenetics _)).1,
   (c3_combine_in_range gParentA gParentA oracleA
     (genesInRange_newGenetics _) (genesInRange_newGenetics _)).2⟩

/-- The per-gene absolute differences accumulated by `Similarity`: one
entry for each of `g`'s genes that also exists in `other`. -/
def geneDiffs (g o : Genetics) : List ℚ :=
  g.genes.filterMap (fun p => (o.genes.lookup p.1).map (fun ov => |p.2 - ov|))

/-- `Similarity`'s `totalDiff` accumulator: the shared-gene differences
plus the three appearance-channel differences. -/
def totalGeneDiff (g o : Genetics) : ℚ :=
  (geneDiffs g o).sum + |g.colorR - o.colorR| + |g.colorG - o.colorG| +
    |g.colorB - o.colorB|

/-- `Similarity`'s `count` accumulator: the number of shared genes plus
the `count += 3` for the appearance channels. -/
def comparedCount (g o : Genetics) : ℕ := (geneDiffs g o).length + 3

/-- `Genetics.Similarity(other)`: `0` for a nil argument, otherwise one
minus the mean absolute difference, with the `count == 0` fallback
returning `1.0`. -/
def Genetics.similarity (g : Genetics) (other : Option Genetics) : ℚ :=
  match other with
  | none => 0
  | some o =>
    if comparedCount g o = 0 then 1
    else 1 - totalGeneDiff g o / (comparedCount g o : ℚ)

/-- C10.  `Similarity(nil)` returns `0`; for every non-nil argument the
three appearance channels are always counted, so the compared-component
count is at least `3` and the return-`1.0` branch is never taken: the
result is always the `1 - totalDiff/count` formula. -/
theorem c10_similarity_nil_and_count (g : Genetics) :
    g.similarity none = 0 ∧
    ∀ o : Genetics, 3 ≤ comparedCount g o ∧
      g.similarity (some o) = 1 - totalGeneDiff g o / (comparedCount g o : ℚ) := by
  refine ⟨rfl, fun o => ⟨?_, ?_⟩⟩
  · unfold comparedCount; omega
  · show (if comparedCount g o = 0 then 1
      else 1 - totalGeneDiff g o / (comparedCount g o : ℚ)) = _
    rw [if_neg (by unfold comparedCount; omega)]

/-! ## Creature fertility and the world breeding pass
(`creature/creature.go`, `game/world.go`) -/

/-- The four life stages. -/
inductive AgeStage where
  | baby
  | child
  | adult
  | elder
  deriving DecidableEq

/-- The slice of the `Creature` struct that `CanBreed` and
`handleBreeding` read: position, metabolism, life stage, age, the last
breeding time, and the brain's output vector (`OutputBreed = 7`). -/
structure Creature where
  x : ℚ
  y : ℚ
  metabolism : Metabolism
  ageStage : AgeStage
  age : ℚ
  lastBreedTime : ℚ
  brainOutput : List ℚ
  deriving DecidableEq

/-- `Creature.CanBreed()`: adult stage, health over 70, energy over 50,
and strictly more than 10 age-units since the last breeding. -/
def Creature.canBreed (c : Creature) : Bool :=
  c.ageStage == AgeStage.adult &&
  decide (c.metabolism.health > 70) &&
  decide (c.metabolism.energy > 50) &&
  decide (c.age - c.lastBreedTime > 10)

/-- C6 (amended).  `CanBreed` returns true exactly when the stage is
adult, health `> 70`, energy `> 50`, and **strictly more than** 10
age-units have elapsed since the last breeding. -/
theorem c6_canBreed_iff (c : Creature) :
    c.canBreed = true ↔
      (c.ageStage = AgeStage.adult ∧ c.metabolism.health > 70 ∧
       c.metabolism.energy > 50 ∧ c.age - c.lastBreedTime > 10) := by
  simp [Creature.canBreed, and_assoc]

/-- A creature sitting exactly at the ten-age-unit cooldown boundary. -/
def borderlineAdult : Creature :=
  { x := 0, y := 0
    metabolism := { newMetabolism with health := 80, energy := 60 }
    ageStage := AgeStage.adult, age := 10, lastBreedTime := 0
    brainOutput := [] }

/-- C6 (counterexample).  At exactly 10 elapsed age-units — where the
claim's "at least 10 age-units" condition holds, together with all the
other claimed conditions — `CanBreed` returns `false`, because the code
requires strictly more than 10. -/
theorem c6_counterexample :
    (borderlineAdult.ageStage = AgeStage.adult ∧
     borderlineAdult.metabolism.health > 70 ∧
     borderlineAdult.metabolism.energy > 50 ∧
     borderlineAdult.age - borderlineAdult.lastBreedTime ≥ 10) ∧
    borderlineAdult.canBreed = false := by
  refine ⟨⟨rfl, ?_, ?_, ?_⟩, ?_⟩
  · norm_num [borderlineAdult, newMetabolism]
  · norm_num [borderlineAdult, newMetabolism]
  · norm_num [borderlineAdult]
  · simp only [Creature.canBreed, borderlineAdult, newMetabolism]
    norm_num

/-- The Go condition `utils.Distance(x1,y1,x2,y2) < r`, stated on the
squares (`Distance` is the non-negative square root, which is strictly
monotone, so comparing squares is exact). -/
def distLT (c1 c2 : Creature) (r : ℚ) : Bool :=
  decide ((c2.x - c1.x) ^ 2 + (c2.y - c1.y) ^ 2 < r ^ 2)

/-- The inner-loop breeding condition of `handleBreeding` for a fixed
`c1`: the partner's `CanBreed` guard (the `continue`), closeness under
the breeding radius 60, and both breed outputs above `0.7`. -/
def pairCondition (c1 c2 : Creature) : Bool :=
  c2.canBreed && distLT c1 c2 60 &&
  decide (c1.brainOutput.getD 7 0 > 0.7) &&
  decide (c2.brainOutput.getD 7 0 > 0.7)

/-- The inner loop of `handleBreeding`: the first partner after `c1`
satisfying the breeding condition. -/
def findMate (c1 : Creature) : List Creature → Option Creature
  | [] => none
  | c2 :: rest => if pairCondition c1 c2 then some c2 else findMate c1 rest

/-- The double loop of `handleBreeding`: the first pair `(i, j)` with
`i < j`, `creatures[i].CanBreed()`, and the breeding condition — the
pair at which the function `return`s. -/
def findBreedingPair : List Creature → Option (Creature × Creature)
  | [] => none
  | c1 :: rest =>
    if c1.canBreed then
      match findMate c1 rest with
      | some c2 => some (c1, c2)
      | none => findBreedingPair rest
    else findBreedingPair rest

/-- `World.GetMaxCreatures()`. -/
def maxCreatures : ℕ := 20

/-- The number of offspring a single `handleBreeding` call adds: zero
when the population cap stops it or no pair qualifies, one otherwise
(the function `return`s after the first breeding). -/
def breedingsPerTick (creatures : List Creature) : ℕ :=
  if creatures.length ≥ maxCreatures then 0
  else
    match findBreedingPair creatures with
    | some _ => 1
    | none => 0

/-- A pair that qualifies for breeding: first member fertile, and the
inner-loop condition holds. -/
def eligiblePair (c1 c2 : Creature) : Prop :=
  c1.canBreed = true ∧ pairCondition c1 c2 = true

theorem findMate_isSome {c1 c2 : Creature} {rest : List Creature}
    (hm : c2 ∈ rest) (hp : pairCondition c1 c2 = true) :
    (findMate c1 rest).isSome = true := by
  induction rest with
  | nil => simp at hm
  | cons a t ih =>
    rw [findMate]
    by_cases ha : pairCondition c1 a = true
    · simp [ha]
    · rcases List.mem_cons.mp hm with rfl | hmt
      · exact absurd hp ha
      · simpa [ha] using ih hmt

theorem findBreedingPair_isSome {c1 c2 : Creature} {l : List Creature}
    (hsub : [c1, c2].Sublist l) (he : eligiblePair c1 c2) :
    (findBreedingPair l).isSome = true := by
  induction l with
  | nil => simp at hsub
  | cons a t ih =>
    cases hsub with
    | cons _ h' =>
      rw [findBreedingPair]
      by_cases hcb : a.canBreed = true
      · cases hfm : findMate a t with
        | some c => simp [hcb, hfm]
        | none => simpa [hcb, hfm] using ih h'
      · simpa [hcb] using ih h'
    | cons₂ _ h' =>
      rw [findBreedingPair]
      have hm : c2 ∈ t := h'.subset (List.mem_singleton_self c2)
      have hfm := findMate_isSome hm he.2
      rw [if_pos he.1]
      cases hfmv : findMate c1 t with
      | some c => simp
      | none => rw [hfmv] at hfm; simp at hfm

/-- C5 (amended).  A single `handleBreeding` call produces at most one
breeding event; and when the population is below the `GetMaxCreatures`
cap of 20, the presence of any fertile willing pair in breeding range —
even if three or more such pairs are in range — yields exactly one
offspring. -/
theorem c5_one_breeding_per_tick (l : List Creature) :
    breedingsPerTick l ≤ 1 ∧
    (l.length < maxCreatures →
      ∀ c1 c2 : Creature, [c1, c2].Sublist l → eligiblePair c1 c2 →
        breedingsPerTick l = 1) := by
  constructor
  · unfold breedingsPerTick
    split_ifs
    · exact Nat.zero_le 1
    · cases findBreedingPair l <;> simp
  · intro hlen c1 c2 hsub he
    unfold breedingsPerTick
    rw [if_neg (by omega)]
    have hsome := findBreedingPair_isSome hsub he
    cases hf : findBreedingPair l with
    | none => rw [hf] at hsome; simp at hsome
    | some p => rfl

/-- A fertile, willing creature (breed output `0.9` at index 7). -/
def fertileAdult : Creature :=
  { x := 0, y := 0
    metabolism := { newMetabolism with health := 80, energy := 60 }
    ageStage := AgeStage.adult, age := 20, lastBreedTime := 0
    brainOutput := [0, 0, 0, 0, 0, 0, 0, 0.9] }

theorem fertileAdult_eligible : eligiblePair fertileAdult fertileAdult := by
  constructor
  · simp [Creature.canBreed, fertileAdult, newMetabolism]
    norm_num
  · simp [pairCondition, Creature.canBreed, distLT, fertileAdult, newMetabolism]
    norm_num

/-- Twenty fertile willing creatures, all at the same spot. -/
def cappedHerd : List Creature := List.replicate 20 fertileAdult

/-- C5 (counterexample).  With the population already at the cap of 20 —
all twenty creatures fertile, willing and in range, so there are far more
than three eligible pairs — `handleBreeding` produces zero offspring,
refuting "exactly one child is produced that tick". -/
theorem c5_counterexample :
    cappedHerd.length = 20 ∧
    eligiblePair fertileAdult fertileAdult ∧
    [fertileAdult, fertileAdult].Sublist cappedHerd ∧
    breedingsPerTick cappedHerd = 0 := by
  refine ⟨by simp [cappedHerd], fertileAdult_eligible, ?_, ?_⟩
  · have h : [fertileAdult, fertileAdult] = List.replicate 2 fertileAdult := rfl
    rw [h, cappedHerd]
    exact (List.replicate_sublist_replicate fertileAdult).mpr (by norm_num)
  · unfold breedingsPerTick
    rw [if_pos (by simp [cappedHerd, maxCreatures])]

/-- A herd of six fertile willing creatures, below the cap. -/
def smallHerd : List Creature := List.replicate 6 fertileAdult

/-- C5 (witness): the amended theorem applied to a concrete herd of six
fertile willing creatures, producing exactly one offspring. -/
theorem c5_witness :
    smallHerd.length < maxCreatures ∧ eligiblePair fertileAdult fertileAdult ∧
    breedingsPerTick smallHerd = 1 := by
  have hlen : smallHerd.length < maxCreatures := by
    simp [smallHerd, maxCreatures]
  have hsub : [fertileAdult, fertileAdult].Sublist smallHerd := by
    have h : [fertileAdult, fertileAdult] = List.replicate 2 fertileAdult := rfl
    rw [h, smallHerd]
    exact (List.replicate_sublist_replicate fertileAdult).mpr (by norm_num)
  exact ⟨hlen, fertileAdult_eligible,
    (c5_one_breeding_per_tick smallHerd).2 hlen fertileAdult fertileAdult hsub
      fertileAdult_eligible⟩

/-! ## LanguageModel (`creature/language.go`) -/

/-- Go `strings.TrimSpace`, modelled on the character list. -/
def trimChars (cs : List Char) : List Char :=
  ((cs.dropWhile Char.isWhitespace).reverse.dropWhile Char.isWhitespace).reverse

/-- Word normalization in `HearWord`/`TeachWord`/`KnowsWord`:
`strings.ToLower(strings.TrimSpace(word))`. -/
def normalizeWord (w : String) : String := ⟨(trimChars w.data).map Char.toLower⟩

/-- A `WordConcept`: what a word means to the creature. -/
structure WordConcept where
  word : String
  objectType : String
  associations : List String
  confidence : ℚ
  timesUsed : ℤ
  lastUsed : ℚ
  deriving DecidableEq

/-- The `LanguageModel` struct.  The vocabulary map is an association list in
insertion order (one admissible Go map iteration order). -/
structure LanguageModel where
  vocabulary : List (String × WordConcept)
  recentWords : List String
  speechClarity : ℚ
  comprehension : ℚ
  vocabularyLimit : ℕ
  currentWord : String
  speechTimer : ℚ
  deriving DecidableEq

/-- `NewLanguage`. -/
def newLanguage : LanguageModel :=
  { vocabulary := [], recentWords := []
    speechClarity := 0.5, comprehension := 0.5, vocabularyLimit := 50
    currentWord := "", speechTimer := 0 }

/-- `int(^uint(0) >> 1)`: the largest Go `int`. -/
def goMaxInt : ℤ := 2 ^ 63 - 1

/-- The scan in `replaceLeastUsedWord`: the key of the first entry (in
iteration order) attaining the strictly smallest `TimesUsed`, or `""`
when the vocabulary is empty. -/
def findLeastUsed (vocab : List (String × WordConcept)) : String :=
  (vocab.foldl
    (fun acc p => if p.2.timesUsed < acc.2 then (p.1, p.2.timesUsed) else acc)
    ("", goMaxInt)).1

/-- Go `delete(map, k)` on the association list. -/
def eraseKey (vocab : List (String × WordConcept)) (k : String) :
    List (String × WordConcept) :=
  vocab.filter (fun p => p.1 != k)

/-- `replaceLeastUsedWord(newWord, objectType)`: delete the least-used
entry and insert the new word — including when the new word is `""`. -/
def replaceLeastUsedWord (l : LanguageModel) (newWord objectType : String) :
    LanguageModel :=
  let leastUsed := findLeastUsed l.vocabulary
  if leastUsed ≠ "" then
    { l with vocabulary := insertAssoc (eraseKey l.vocabulary leastUsed) newWord ⟨newWord, objectType, [], 0.3 * l.comprehension, 1, 0⟩ }
  else l

/-- `TeachWord(word, objectType)`: unconditional high-confidence insert,
then the vocabulary-limit check calling `replaceLeastUsedWord("", "")`. -/
def LanguageModel.teachWord (l : LanguageModel) (word objectType : String) : LanguageModel :=
  let w := normalizeWord word
  let l1 : LanguageModel := { l with vocabulary := insertAssoc l.vocabulary w ⟨w, objectType, [], 0.8, 0, 0⟩ }
  if l1.vocabulary.length > l1.vocabularyLimit then
    replaceLeastUsedWord l1 "" ""
  else l1

/-- `GetVocabularySize()`. -/
def LanguageModel.getVocabularySize (l : LanguageModel) : ℕ := l.vocabulary.length

/-- `KnowsWord(word)`: known with confidence above `0.3`. -/
def LanguageModel.knowsWord (l : LanguageModel) (word : String) : Bool :=
  match l.vocabulary.lookup (normalizeWord word) with
  | some concept => decide (concept.confidence > 0.3)
  | none => false

/-- `GetWordConfidence(word)`. -/
def LanguageModel.getWordConfidence (l : LanguageModel) (word : String) : ℚ :=
  match l.vocabulary.lookup (normalizeWord word) with
  | some concept => concept.confidence
  | none => 0

/-- The speech-timer block of `LanguageModel.Update()`. -/
def LanguageModel.updateSpeechTimer (l : LanguageModel) : LanguageModel :=
  if l.speechTimer > 0 then
    if l.speechTimer - 0.016 ≤ 0 then
      { l with speechTimer := l.speechTimer - 0.016, currentWord := "" }
    else { l with speechTimer := l.speechTimer - 0.016 }
  else l

/-- The per-entry vocabulary-aging step of `LanguageModel.Update()`.  The
`LastUsed` increment is applied to a copy of the entry and is only
written back on the `> 600` decay path; on that path the entry is
deleted once its decayed confidence falls below `0.1`. -/
def agingStep (p : String × WordConcept) : Option (String × WordConcept) :=
  if p.2.lastUsed + 0.016 > 600 then
    if p.2.confidence * 0.999 < 0.1 then none
    else some (p.1, { p.2 with lastUsed := p.2.lastUsed + 0.016
                               confidence := p.2.confidence * 0.999 })
  else some p

/-- `LanguageModel.Update()`: the speech timer block, then vocabulary aging. -/
def LanguageModel.update (l : LanguageModel) : LanguageModel :=
  let l1 := l.updateSpeechTimer
  { l1 with vocabulary := l1.vocabulary.filterMap agingStep }

/-- Fold of `TeachWord` calls (each with object type `"thing"`) over a
list of words, starting from a fresh language model. -/
def teachWords (ws : List String) : LanguageModel :=
  ws.foldl (fun l w => l.teachWord w "thing") newLanguage

/-- Fifty-one pairwise distinct lowercase two-letter words. -/
def fiftyOneWords : List String :=
  (List.range 51).map
    (fun i => String.mk [Char.ofNat (97 + i / 26), Char.ofNat (97 + i % 26)])

set_option maxRecDepth 8192 in
/-- C2.  Teaching 51 distinct words leaves 51 vocabulary entries — one
more than the `VocabularyLimit` of 50: the 51st `TeachWord` call evicts
the least-used entry but then `replaceLeastUsedWord("", "")` re-inserts
the empty-string word, so the vocabulary grows past the limit, contrary
to the code's own `// Ensure vocabulary limit` intent. -/
theorem c2_vocabulary_overflow :
    fiftyOneWords.length = 51 ∧
    (teachWords fiftyOneWords).getVocabularySize = 51 ∧
    50 < (teachWords fiftyOneWords).getVocabularySize := by
  refine ⟨by decide, ?_, ?_⟩ <;> decide

/-- The state after `TeachWord("ball", "toy")` on a fresh model. -/
def taughtBall : LanguageModel := newLanguage.teachWord "ball" "toy"

theorem normalizeWord_ball : normalizeWord "ball" = "ball" := by decide

/-- The concept stored for `"ball"` by `TeachWord`. -/
def ballConcept : WordConcept := ⟨"ball", "toy", [], 0.8, 0, 0⟩

/-- The taught state, written out. -/
def ballState : LanguageModel :=
  { newLanguage with vocabulary := [("ball", ballConcept)] }

theorem taughtBall_eq : taughtBall = ballState := by
  simp only [taughtBall, LanguageModel.teachWord, normalizeWord_ball,
    newLanguage, insertAssoc, List.lookup_nil, ballState, ballConcept]
  norm_num

theorem update_ballState : ballState.update = ballState := by
  simp only [LanguageModel.update, LanguageModel.updateSpeechTimer, ballState,
    newLanguage, agingStep, ballConcept, List.filterMap]
  norm_num

theorem iterate_update_taughtBall (n : ℕ) :
    LanguageModel.update^[n] taughtBall = ballState := by
  rw [taughtBall_eq]
  exact Function.iterate_fixed update_ballState n

/-- C4 (counterexample).  After `TeachWord("ball","toy")` and 601
consecutive `Update` calls with the word unused, the confidence is still
exactly `0.8` — not below `0.1` — and `KnowsWord("ball")` still returns
true: each `Update` adds only `0.016` to a copy of the unused counter and
never writes it back below the `600` decay threshold, so the claimed
decay never happens. -/
theorem c4_counterexample :
    (LanguageModel.update^[601] taughtBall).getWordConfidence "ball" = 0.8 ∧
    ¬((LanguageModel.update^[601] taughtBall).getWordConfidence "ball" < 0.1) ∧
    (LanguageModel.update^[601] taughtBall).knowsWord "ball" = true := by
  rw [iterate_update_taughtBall]
  refine ⟨?_, ?_, ?_⟩
  · simp [LanguageModel.getWordConfidence, ballState, ballConcept,
      normalizeWord_ball, List.lookup]
  · simp only [LanguageModel.getWordConfidence, ballState, ballConcept,
      normalizeWord_ball, List.lookup]
    norm_num
  · simp only [LanguageModel.knowsWord, ballState, ballConcept,
      normalizeWord_ball, List.lookup]
    norm_num

/-- C4 (amended).  `TeachWord("ball","toy")` makes `KnowsWord("ball")`
true with confidence exactly `0.8`; and after 601 consecutive `Update`
calls of disuse the state is unchanged — confidence still `0.8`,
`KnowsWord` still true — because the aging path persists nothing until
an entry's unused counter (advanced `0.016` per tick, on a copy) would
exceed `600`. -/
theorem c4_teach_and_decay :
    taughtBall.knowsWord "ball" = true ∧
    taughtBall.getWordConfidence "ball" = 0.8 ∧
    (LanguageModel.update^[601] taughtBall).knowsWord "ball" = true ∧
    (LanguageModel.update^[601] taughtBall).getWordConfidence "ball" = 0.8 := by
  rw [iterate_update_taughtBall, taughtBall_eq]
  refine ⟨?_, ?_, ?_, ?_⟩ <;>
    · simp only [LanguageModel.knowsWord, LanguageModel.getWordConfidence,
        ballState, ballConcept, normalizeWord_ball, List.lookup]
      norm_num

/-! ## Learning memory recall (`creature/learning.go`) -/

/-- An `Experience` record. -/
structure Experience where
  situation : List ℝ
  action : ℤ
  outcome : ℝ
  timestamp : ℝ
  importance : ℝ

/-- The common accumulator of `calculateSimilarity`'s loop:
`Σ aᵢ·bᵢ` over the paired components. -/
noncomputable def dotProduct (a b : List ℝ) : ℝ :=
  (List.zipWith (· * ·) a b).sum

/-- `calculateSimilarity`: cosine similarity, `0` on length mismatch or
a zero magnitude. -/
noncomputable def calculateSimilarity (s1 s2 : List ℝ) : ℝ :=
  if s1.length ≠ s2.length then 0
  else if dotProduct s1 s1 = 0 ∨ dotProduct s2 s2 = 0 then 0
  else dotProduct s1 s2 /
    (Real.sqrt (dotProduct s1 s1) * Real.sqrt (dotProduct s2 s2))

/-- `RecallSimilarExperience(currentSituation)`: scan all experiences,
weight each cosine similarity by the experience's importance, track the
strictly best match, and return it only above the `0.7` threshold. -/
noncomputable def recallSimilarExperience (exps : List Experience)
    (cur : List ℝ) : Option Experience :=
  if exps.isEmpty then none
  else
    let best := exps.foldl
      (fun (acc : Option Experience × ℝ) e =>
        if acc.2 < calculateSimilarity cur e.situation * e.importance then
          (some e, calculateSimilarity cur e.situation * e.importance)
        else acc)
      ((none : Option Experience), (0 : ℝ))
    if best.2 > 0.7 then best.1 else none

theorem dotProduct_self_nonneg (l : List ℝ) : 0 ≤ dotProduct l l := by
  induction l with
  | nil => simp [dotProduct]
  | cons a t ih =>
    have : dotProduct (a :: t) (a :: t) = a * a + dotProduct t t := by
      simp [dotProduct]
    rw [this]
    have := mul_self_nonneg a
    linarith

theorem calculateSimilarity_self {cur : List ℝ}
    (h : dotProduct cur cur ≠ 0) : calculateSimilarity cur cur = 1 := by
  unfold calculateSimilarity
  rw [if_neg (by simp), if_neg (by simp [h])]
  rw [Real.mul_self_sqrt (dotProduct_self_nonneg cur)]
  exact div_self h

/-- C7 (amended).  For a memory whose experience store holds exactly the
one experience whose situation equals the (nonzero) query, recall
returns that experience whenever its importance exceeds `0.7`: the
cosine similarity is exactly `1`, so the importance-weighted similarity
is the importance itself, which must clear the strict `0.7` threshold. -/
theorem c7_recall_identical (e : Experience) (cur : List ℝ)
    (hsit : e.situation = cur) (hnz : dotProduct cur cur ≠ 0)
    (himp : e.importance > 0.7) :
    recallSimilarExperience [e] cur = some e := by
  have hsim : calculateSimilarity cur e.situation = 1 := by
    rw [hsit]; exact calculateSimilarity_self hnz
  have himp0 : (0 : ℝ) < e.importance := by linarith
  unfold recallSimilarExperience
  rw [if_neg (by simp)]
  simp only [List.foldl_cons, List.foldl_nil, hsim, one_mul]
  rw [if_pos himp0]
  rw [if_pos himp]

/-- A single stored experience with importance `4/5 > 0.7`. -/
noncomputable def strongExp : Experience := ⟨[1], 0, 0, 0, 4 / 5⟩

/-- C7 (witness): the amended theorem at the concrete one-element store
and query `[1]`. -/
theorem c7_witness :
    strongExp.importance > 0.7 ∧
    recallSimilarExperience [strongExp] [1] = some strongExp :=
  ⟨by norm_num [strongExp],
   c7_recall_identical strongExp [1] rfl (by norm_num [dotProduct])
     (by norm_num [strongExp])⟩

/-- A single stored experience with positive importance `1/2 ≤ 0.7`. -/
noncomputable def halfImportantExp : Experience := ⟨[1], 0, 0, 0, 1 / 2⟩

/-- C7 (counterexample).  With one stored experience identical to the
nonzero query but of (positive) importance `1/2`, recall returns nothing:
the importance-weighted similarity `1/2` misses the `0.7` threshold, so
"whenever the experience's importance is positive" is false. -/
theorem c7_counterexample :
    halfImportantExp.importance > 0 ∧
    halfImportantExp.situation = [(1 : ℝ)] ∧
    recallSimilarExperience [halfImportantExp] [1] = none := by
  refine ⟨by norm_num [halfImportantExp], rfl, ?_⟩
  have hsim : calculateSimilarity [(1 : ℝ)] halfImportantExp.situation = 1 :=
    calculateSimilarity_self (by norm_num [dotProduct])
  unfold recallSimilarExperience
  rw [if_neg (by simp)]
  simp only [List.foldl_cons, List.foldl_nil, hsim, one_mul]
  rw [if_pos (by norm_num [halfImportantExp] : (0:ℝ) < halfImportantExp.importance)]
  rw [if_neg (by norm_num [halfImportantExp])]

/-! ## The neural controller's forward pass (`creature/brain.go`) -/

/-- The logistic sigmoid activation. -/
noncomputable def sigmoid (x : ℝ) : ℝ := 1 / (1 + Real.exp (-x))

/-- The input-size policy of `Process`: pad with zeros or truncate when
the input length mismatches the declared input size. -/
def adjustInput (inputSize : ℕ) (input : List ℝ) : List ℝ :=
  if input.length ≠ inputSize then
    if input.length < inputSize then
      input ++ List.replicate (inputSize - input.length) 0
    else input.take inputSize
  else input

/-- Go `copy(dst, src)`: overwrite the first `min |dst| |src|` entries
of `dst` with those of `src`, keeping the rest of `dst`. -/
def copyInto {α : Type} (dst src : List α) : List α :=
  src.take (min dst.length src.length) ++ dst.drop (min dst.length src.length)

/-- One neuron of the forward pass: bias plus the weighted sum over the
current layer (weights stored flat, index `i * nextLen + j`), through
the sigmoid. -/
noncomputable def neuronValue (w b cur : List ℝ) (nextLen j : ℕ) : ℝ :=
  sigmoid ((b.getD j 0) +
    ((List.range cur.length).map
      (fun i => cur.getD i 0 * w.getD (i * nextLen + j) 0)).sum)

/-- One layer boundary of the forward pass: the next layer's activation
vector, whose length is the (pre-existing) next activation cache length. -/
noncomputable def layerStep (w b cur : List ℝ) (nextLen : ℕ) : List ℝ :=
  (List.range nextLen).map (neuronValue w b cur nextLen)

/-- The layer loop of `Process`: starting from the (input-copied) layer-0
activations, recompute each successive cached activation vector; layers
beyond the weight/bias lists are left untouched (in Go a missing
activation row would panic, so well-formed brains never reach the
short patterns). -/
noncomputable def runLayers :
    List (List ℝ) → List (List ℝ) → List ℝ → List (List ℝ) → List (List ℝ)
  | [], _, cur, oldTail => cur :: oldTail
  | _ :: _, [], cur, oldTail => cur :: oldTail
  | _ :: _, _ :: _, cur, [] => cur :: []
  | w :: ws, b :: bs, cur, old :: oldTail =>
      cur :: runLayers ws bs (layerStep w b cur old.length) oldTail

/-- The `Brain` struct. -/
structure Brain where
  inputSize : ℕ
  hiddenSize : List ℕ
  outputSize : ℕ
  weights : List (List ℝ)
  biases : List (List ℝ)
  activations : List (List ℝ)
  learningRate : ℝ
  momentum : ℝ
  prevWeightChanges : List (List ℝ)
  prevBiasChanges : List (List ℝ)
  output : List ℝ

/-- `Brain.Process(input)`: adjust the input length, copy it into the
layer-0 activation cache, run the forward pass in place, and copy the
last activation row into the output vector. -/
noncomputable def Brain.process (b : Brain) (input : List ℝ) : Brain :=
  let adjusted := adjustInput b.inputSize input
  let acts0 := copyInto (b.activations.headD []) adjusted
  let newActs := runLayers b.weights b.biases acts0 b.activations.tail
  { b with activations := newActs
           output := copyInto b.output (newActs.getLastD []) }

theorem copyInto_length {α : Type} (dst src : List α) :
    (copyInto dst src).length = dst.length := by
  unfold copyInto
  rw [List.length_append, List.length_take, List.length_drop]
  omega

theorem copyInto_copyInto {α : Type} (dst src : List α) :
    copyInto (copyInto dst src) src = copyInto dst src := by
  have hto : (src.take (min dst.length src.length)).length
      = min dst.length src.length := by
    rw [List.length_take]
    exact Nat.min_eq_left (Nat.min_le_right _ _)
  have hdrop : (src.take (min dst.length src.length) ++
      dst.drop (min dst.length src.length)).drop (min dst.length src.length)
      = dst.drop (min dst.length src.length) := List.drop_left' hto
  show src.take (min (copyInto dst src).length src.length) ++
      (copyInto dst src).drop (min (copyInto dst src).length src.length)
      = copyInto dst src
  rw [copyInto_length]
  show src.take (min dst.length src.length) ++
      (src.take (min dst.length src.length) ++
        dst.drop (min dst.length src.length)).drop (min dst.length src.length)
      = src.take (min dst.length src.length) ++ dst.drop (min dst.length src.length)
  rw [hdrop]

theorem layerStep_length (w b cur : List ℝ) (n : ℕ) :
    (layerStep w b cur n).length = n := by
  simp [layerStep]

theorem runLayers_shape (ws bs : List (List ℝ)) (cur : List ℝ)
    (old : List (List ℝ)) :
    ∃ t, runLayers ws bs cur old = cur :: t ∧
      t.map List.length = old.map List.length := by
  induction ws generalizing bs cur old with
  | nil => exact ⟨old, rfl, rfl⟩
  | cons w ws ih =>
    cases bs with
    | nil => exact ⟨old, rfl, rfl⟩
    | cons b bs =>
      cases old with
      | nil => exact ⟨[], rfl, rfl⟩
      | cons o oldTail =>
        obtain ⟨t, ht, hlen⟩ := ih bs (layerStep w b cur o.length) oldTail
        refine ⟨layerStep w b cur o.length :: t, ?_, ?_⟩
        · rw [runLayers, ht]
        · simp [hlen, layerStep_length]

theorem runLayers_idem (ws bs : List (List ℝ)) (cur : List ℝ)
    (old : List (List ℝ)) :
    runLayers ws bs cur (runLayers ws bs cur old).tail
      = runLayers ws bs cur old := by
  induction ws generalizing bs cur old with
  | nil => simp [runLayers]
  | cons w ws ih =>
    cases bs with
    | nil => simp [runLayers]
    | cons b bs =>
      cases old with
      | nil => simp [runLayers]
      | cons o oldTail =>
        obtain ⟨t, ht, hlen⟩ := runLayers_shape ws bs
          (layerStep w b cur o.length) oldTail
        have hIH := ih bs (layerStep w b cur o.length) oldTail
        rw [ht, List.tail_cons] at hIH
        rw [runLayers, List.tail_cons, ht, runLayers, layerStep_length, hIH]

/-- C8.  Calling `Process` twice with the same input, with no intervening
`Learn`, `Reinforce` or `Mutate`, leaves the whole brain state — and in
particular the output vector — unchanged from the first call. -/
theorem c8_process_idempotent (b : Brain) (input : List ℝ) :
    ((b.process input).process input).output = (b.process input).output ∧
    (b.process input).process input = b.process input := by
  have key : (b.process input).process input = b.process input := by
    simp only [Brain.process]
    obtain ⟨t, ht, hlen⟩ := runLayers_shape b.weights b.biases
      (copyInto (b.activations.headD []) (adjustInput b.inputSize input))
      b.activations.tail
    have hhead : (runLayers b.weights b.biases
        (copyInto (b.activations.headD []) (adjustInput b.inputSize input))
        b.activations.tail).headD []
        = copyInto (b.activations.headD []) (adjustInput b.inputSize input) := by
      rw [ht]; rfl
    rw [hhead, copyInto_copyInto, runLayers_idem, copyInto_copyInto]
  exact ⟨congrArg Brain.output key, key⟩
